import Mathlib

/-!
Verification of the session-persistence and connection-lifecycle subsystem of
the rexwa WhatsApp bot.

The embedding translates, from the JavaScript source:
- the MongoDB session restore phase of `useMongoAuthState`
  (src/utils/mongoAuthState.js, tar-archive variant, lines 108-243, and the
  near-identical src/unnamed/part_003 lines 12-56), together with its
  `cleanupSession` helper (lines 231-240);
- the debounced `saveCreds` trigger and its deferred archive-and-upload
  timer callback (src/unnamed/part_003 lines 59-86);
- the non-debounced `saveCreds` of the tar variant of mongoAuthState.js
  (lines 183-228);
- the reconnect/backoff handling of `HyperWaBot.startSock`
  (src/Core/bot.js, second variant, lines 407-409, 545-571);
- `HyperWaBot.getMessage` (src/Core/bot.js lines 279-288).

Machine-level effects (filesystem, MongoDB, timers, promise rejection) are
made explicit: fallible steps take failure-injection flags and return
`Except`, timers are an optional absolute fire time, and the database
session record is an `Option` value.
-/

namespace Rexwa

/-! ## Data model: credential files, extracted trees, archives, session docs -/

/-- Presence of the four credential fields the spec calls mandatory
(`noiseKey`, `signedIdentityKey`, `signedPreKey`, `registrationId`) in the
parsed `creds.json`.  The source never inspects these fields; they are
carried so that claims about field-level validation can be stated. -/
structure CredFields where
  noiseKey : Bool
  signedIdentityKey : Bool
  signedPreKey : Bool
  registrationId : Bool
deriving DecidableEq, Repr

/-- Contents of the local `./auth_info` directory as the restore code
observes them: whether `creds.json` exists (and, if so, which fields it
has), whether `keys/` exists, and how many key files it holds. -/
structure ExtractedTree where
  credsJson : Option CredFields
  keysDirPresent : Bool
  keyFiles : Nat
deriving DecidableEq, Repr

/-- The `archive` binary stored in the `auth` collection.  `malformed`
models bytes on which `tar.x({ strict: true })` throws; `valid tree` models
an archive that extracts to `tree` under `./auth_info`. -/
inductive ArchiveBlob
  | malformed
  | valid (tree : ExtractedTree)
deriving DecidableEq, Repr

/-- The empty local auth directory, the state after `fs.emptyDir(AUTH_DIR)`. -/
def emptyTree : ExtractedTree := ⟨none, false, 0⟩

/-- Result of the restore phase, naming the three observable branches of the
source: the success log line, the no-session log line, and the
cleanup path. -/
inductive RestoreResult
  | restored
  | absent
  | corruptedAndCleared
deriving DecidableEq, Repr

/-- World state after the restore phase: the branch taken, the `auth`
collection singleton afterwards, and the local auth directory afterwards. -/
structure RestoreOutcome where
  result : RestoreResult
  dbSession : Option ArchiveBlob
  authDir : ExtractedTree
deriving DecidableEq, Repr

/-- Restore phase of `useMongoAuthState`
(src/utils/mongoAuthState.js lines 122-171; src/unnamed/part_003
lines 18-52).  Reads the singleton session; if absent (or its archive is
not a Buffer) logs and continues.  Otherwise writes the archive to a temp
tar and extracts it; if extraction throws, `cleanupSession` runs
(`deleteOne` on the session plus `fs.emptyDir(AUTH_DIR)`).  After a
successful extraction the only validation performed is
`fs.pathExists(credsPath)`: if `creds.json` is missing the cleanup runs,
otherwise the session is reported restored.  No field of `creds.json` is
parsed or checked. -/
def mongoRestore (db : Option ArchiveBlob) (dir0 : ExtractedTree) : RestoreOutcome :=
  match db with
  | none => ⟨.absent, none, dir0⟩
  | some .malformed => ⟨.corruptedAndCleared, none, emptyTree⟩
  | some (.valid tree) =>
      if tree.credsJson.isSome then ⟨.restored, some (.valid tree), tree⟩
      else ⟨.corruptedAndCleared, none, emptyTree⟩

/-! ## AuthStore upserts -/

/-- A document of the `auth` collection (`_id: "session"`).  `size` is an
`Option` because MongoDB documents are schemaless: a document written by an
updater that never `$set`s `size` simply lacks the field. -/
structure StoredSession where
  archive : List Nat
  timestamp : Nat
  size : Option Nat
deriving DecidableEq, Repr

/-- The `updateOne({_id: "session"}, { $set: { archive: data, timestamp: new Date() } }, { upsert: true })`
of the debounced save in src/unnamed/part_003 lines 74-78.  `size` is not in
the `$set` document, so it is left as-is on an existing document and absent
on a fresh insert. -/
def upsertPart003 (db : Option StoredSession) (data : List Nat) (now : Nat) :
    Option StoredSession :=
  match db with
  | some doc => some { doc with archive := data, timestamp := now }
  | none => some ⟨data, now, none⟩

/-- The `updateOne({_id: "session"}, { $set: { archive: data, timestamp: new Date(), size: data.length } }, { upsert: true })`
of src/utils/mongoAuthState.js lines 208-218: all three fields are `$set`. -/
def upsertMongoAuth (_db : Option StoredSession) (data : List Nat) (now : Nat) :
    Option StoredSession :=
  some ⟨data, now, some data.length⟩

/-! ## Debounced saveCreds (src/unnamed/part_003 lines 59-86)

The wrapper `saveCreds` first awaits the underlying library save
(`originalSaveCreds`, which writes the in-memory credentials to the local
auth directory), then clears any outstanding timer and arms a fresh one for
10000 ms later; the archive-and-upload runs only when a timer fires.

The model is a discrete-event semantics: credential contents are `Nat`
tags, the timer is the absolute fire time it was armed for, and
`persisted` logs each archive-and-upload with its fire time and the
directory contents it packed.  The directory is only written by triggers,
so a timer firing between two events packs the directory as the last
trigger left it; `fireIfDue` performs any due firing at the next observed
instant. -/

/-- Debounce interval: `setTimeout(..., 10000)` in part_003 line 85. -/
def debounceMs : Nat := 10000

/-- State of the debounced persister: local auth directory contents (as
written by the library save), the pending timer fire time if armed, and the
log of completed archive-and-upload operations. -/
structure PersisterState where
  authDir : Nat
  timer : Option Nat
  persisted : List (Nat × Nat)
deriving DecidableEq, Repr

/-- Fire the pending timer if its fire time has been reached by `now`:
the callback packs the auth directory as it stands and uploads it, and the
timer slot empties.  Not due (or no timer): no change. -/
def fireIfDue (now : Nat) (s : PersisterState) : PersisterState :=
  match s.timer with
  | some ft =>
      if ft ≤ now then
        { s with timer := none, persisted := s.persisted ++ [(ft, s.authDir)] }
      else s
  | none => s

/-- One call of the wrapped `saveCreds` at instant `now` with current
credentials `creds` (part_003 lines 61-65): `await originalSaveCreds()`
writes `creds` to the auth directory synchronously, then
`clearTimeout(saveTimer)` plus `setTimeout(..., 10000)` re-arms the single
timer for `now + debounceMs`.  Nothing is uploaded here. -/
def saveCredsTrigger (now : Nat) (creds : Nat) (s : PersisterState) : PersisterState :=
  { s with authDir := creds, timer := some (now + debounceMs) }

/-- Run a sequence of timestamped trigger calls, firing any due timer
before each call (timers fire as soon as the event loop reaches them). -/
def runTriggers (s : PersisterState) : List (Nat × Nat) → PersisterState
  | [] => s
  | (t, c) :: rest => runTriggers (saveCredsTrigger t c (fireIfDue t s)) rest

/-- `gapsOk tprev evs`: the events in `evs` occur in strictly increasing
order, each strictly less than `debounceMs` after the one before it
(`tprev` is the instant of the previous event). -/
def gapsOk : Nat → List (Nat × Nat) → Prop
  | _, [] => True
  | tprev, (t, _) :: rest => tprev < t ∧ t < tprev + debounceMs ∧ gapsOk t rest

instance gapsOkDecidable : (tprev : Nat) → (evs : List (Nat × Nat)) → Decidable (gapsOk tprev evs)
  | _, [] => .isTrue trivial
  | tprev, (t, _) :: rest =>
      have : Decidable (gapsOk t rest) := gapsOkDecidable t rest
      inferInstanceAs (Decidable (tprev < t ∧ t < tprev + debounceMs ∧ gapsOk t rest))

/-- Instant of the last event of the burst (`tprev` when empty). -/
def lastTime (tprev : Nat) : List (Nat × Nat) → Nat
  | [] => tprev
  | (t, _) :: rest => lastTime t rest

/-- Credentials of the last event of the burst (`c0` when empty). -/
def lastCreds (c0 : Nat) : List (Nat × Nat) → Nat
  | [] => c0
  | (_, c) :: rest => lastCreds c rest

/-! ## Persist failure semantics (C8)

Each awaited step inside the try block may reject; a failure-injection flag
per step says whether it does.  The top-level result is an `Except`: a
`.error` would model the async function itself rejecting (crashing its
caller), while `.ok` carries the resulting database state and the log
lines emitted. -/

/-- Body of the try block of the deferred timer callback in
src/unnamed/part_003 lines 66-79: `tar.c`, `fs.readFile`, then the
`updateOne` upsert, each of which may reject. -/
def tryArchivePart003 (db : Option StoredSession) (data : List Nat) (now : Nat)
    (tarFails readFails dbFails : Bool) : Except String (Option StoredSession) := do
  if tarFails then throw "tar pack failed"
  if readFails then throw "readFile failed"
  if dbFails then throw "updateOne failed"
  return upsertPart003 db data now

/-- The deferred timer callback of src/unnamed/part_003 lines 65-85: the
try block, a catch that logs the error, and a finally that removes the
temp tar (itself guarded by `.catch(() => \x7b\x7d)`).  Every rejection of the
body is converted into a log line, so the callback always resolves. -/
def persistTimerCallback (db : Option StoredSession) (data : List Nat) (now : Nat)
    (tarFails readFails dbFails : Bool) :
    Except String (Option StoredSession × List String) :=
  match tryArchivePart003 db data now tarFails readFails dbFails with
  | .ok db2 => .ok (db2, ["Session saved to MongoDB."])
  | .error e => .ok (db, ["Failed to save session to MongoDB: " ++ e])

/-- Body of the try block of `saveCreds` in src/utils/mongoAuthState.js
lines 185-221: `originalSaveCreds`, optional store-file check, `tar.c`,
`fs.readFile`, the three-field `updateOne` upsert, and the temp-file
removal, all inside the same try. -/
def tryArchiveMongoAuth (db : Option StoredSession) (data : List Nat) (now : Nat)
    (localFails tarFails readFails dbFails : Bool) :
    Except String (Option StoredSession) := do
  if localFails then throw "originalSaveCreds failed"
  if tarFails then throw "tar pack failed"
  if readFails then throw "readFile failed"
  if dbFails then throw "updateOne failed"
  return upsertMongoAuth db data now

/-- `saveCreds` of src/utils/mongoAuthState.js lines 183-228: the whole
body is wrapped in try/catch and the catch only logs (the source comment
reads: do not throw, we do not want to crash the app for backup
failures). -/
def saveCredsMongoAuth (db : Option StoredSession) (data : List Nat) (now : Nat)
    (localFails tarFails readFails dbFails : Bool) :
    Except String (Option StoredSession × List String) :=
  match tryArchiveMongoAuth db data now localFails tarFails readFails dbFails with
  | .ok db2 => .ok (db2, ["Session and store saved to MongoDB."])
  | .error e => .ok (db, ["Failed to save session to MongoDB: " ++ e])

/-! ## Connection lifecycle (src/Core/bot.js, second variant)

The constructor (lines 407-409) sets `reconnectInterval = 1000` and
`maxReconnectInterval = 30000`.  The `connection.update` handler
(lines 545-571) distinguishes a close with status code `loggedOut` from
any other close, and handles `open`. -/

/-- Observable state of the bot relevant to the reconnect lifecycle.
`scheduled` logs, in order, the delay of every reconnect timer armed by
`setTimeout(() => this.startSock(), this.reconnectInterval)`.
`exited` records that `process.exit(1)` ran: a dead process receives no
further events, so `connStep` freezes the state once it is set.
`authDirEmptied` tracks whether the local `./auth_info` directory has been
emptied. -/
structure BotState where
  reconnectInterval : Nat
  maxReconnectInterval : Nat
  scheduled : List Nat
  dbSessionPresent : Bool
  authDirEmptied : Bool
  useMongoAuth : Bool
  isShuttingDown : Bool
  exited : Bool
deriving DecidableEq, Repr

/-- Connection events delivered by the library to the handler:
a close with a non-`loggedOut` status code, a close with the `loggedOut`
code, and a successful open. -/
inductive ConnEvent
  | closeTransient
  | closeLoggedOut
  | connOpen
deriving DecidableEq, Repr

/-- One `connection.update` event as handled at src/Core/bot.js
lines 545-571.  Transient close (status code not `loggedOut`): unless
shutting down, arm a reconnect timer with the current interval, then set
`reconnectInterval = min(reconnectInterval * 2, maxReconnectInterval)`.
Close with `loggedOut`: when Mongo auth is in use, `deleteOne` the session
record; then `process.exit(1)`.  The local auth directory is not touched
on this path.  Open: `reconnectInterval = 1000`. -/
def connStep (s : BotState) (e : ConnEvent) : BotState :=
  if s.exited then s
  else
    match e with
    | .closeTransient =>
        if s.isShuttingDown then s
        else
          { s with
            scheduled := s.scheduled ++ [s.reconnectInterval]
            reconnectInterval := min (s.reconnectInterval * 2) s.maxReconnectInterval }
    | .closeLoggedOut =>
        { s with
          dbSessionPresent := if s.useMongoAuth then false else s.dbSessionPresent
          exited := true }
    | .connOpen => { s with reconnectInterval := 1000 }

/-- `k` consecutive transient disconnects with no intervening event. -/
def runTransients (s : BotState) : Nat → BotState
  | 0 => s
  | k + 1 => runTransients (connStep s .closeTransient) k

/-! ## getMessage (src/Core/bot.js lines 279-288) -/

/-- The message key handed to `getMessage`; both fields are nullable. -/
structure MsgKey where
  remoteJid : Option String
  id : Option String
deriving DecidableEq, Repr

/-- JS truthiness of a nullable string: null, undefined and the empty
string are falsy. -/
def truthy : Option String → Bool
  | none => false
  | some s => !(s == "")

/-- A record held by the in-memory store; its `message` field may be
absent. -/
structure StoredMsg where
  message : Option Nat
deriving DecidableEq, Repr

/-- `HyperWaBot.getMessage` (src/Core/bot.js lines 279-288).  The guard
`if (!key?.remoteJid || !key?.id) return undefined` handles a null key and
falsy fields; the store lookup is awaited inside try/catch, the catch
returning undefined; a hit yields `msg?.message || undefined`.  The
lookup argument is the outcome `this.store.loadMessage` would produce:
`.error` when it throws, `.ok none` when it finds nothing.  The return
type is a plain `Option`: every path of the source resolves to a value,
none rethrows. -/
def getMessage (key : Option MsgKey) (lookup : Except String (Option StoredMsg)) :
    Option Nat :=
  match key with
  | none => none
  | some k =>
      if !(truthy k.remoteJid) || !(truthy k.id) then none
      else
        match lookup with
        | .error _ => none
        | .ok none => none
        | .ok (some m) => m.message

/-! ## getMessage, cached variant (src/Core/bot.js lines 693-712)

The second `HyperWaBot.getMessage` wraps its whole body in try/catch and
consults `this.messageStore` (a Map from message id to message, populated
at lines 609-613) by `key.id` before any guard on `remoteJid`; only on a
falsy id or a cache miss does it fall through to
`this.store.loadMessage(key.remoteJid, key.id)` raced against a 2 s
timeout, returning `msg?.message`.  A null key throws on the `key.id`
access and the catch returns undefined. -/

/-- `this.messageStore.has(i)` / `.get(i)`: association lookup by message
id. -/
def lookupCache (cache : List (String × Nat)) (i : String) : Option Nat :=
  match cache.find? (fun p => p.1 == i) with
  | some p => some p.2
  | none => none

/-- The condition `key.id && this.messageStore.has(key.id)` together with
the `get`: a truthy id that the map holds yields the cached message. -/
def cacheHit (cache : List (String × Nat)) (k : MsgKey) : Option Nat :=
  match k.id with
  | none => none
  | some i => if i == "" then none else lookupCache cache i

/-- The fallback branch `if (this.store) \x7b ... return msg?.message; \x7d
return undefined;`: with a store present, the raced lookup result
(`.error` when `loadMessage` throws — caught by the enclosing catch —,
`.ok none` when it finds nothing or the 2 s timeout wins) is projected to
`msg?.message`; with no store, undefined. -/
def storeLookup (storePresent : Bool) (lookup : Except String (Option StoredMsg)) :
    Option Nat :=
  if storePresent then
    match lookup with
    | .error _ => none
    | .ok none => none
    | .ok (some m) => m.message
  else none

/-- `HyperWaBot.getMessage`, cached variant (src/Core/bot.js
lines 693-712): messageStore first, before any guard on `remoteJid`; then
the raced store lookup; every throwing path is caught and resolves to
undefined, so the embedding is total into `Option`. -/
def getMessageCached (key : Option MsgKey) (cache : List (String × Nat))
    (storePresent : Bool) (lookup : Except String (Option StoredMsg)) :
    Option Nat :=
  match key with
  | none => none
  | some k =>
      match cacheHit cache k with
      | some v => some v
      | none => storeLookup storePresent lookup

/-! ## Theorems -/

/-- C1 counterexample: a stored archive that extracts to a `creds.json`
with `noiseKey`, `signedIdentityKey` and `signedPreKey` present but
`registrationId` absent.  The claim says restore must not report success,
yet the code reports `restored` because it only checks that `creds.json`
exists. -/
theorem c1_restore_counterexample :
    ¬ ((mongoRestore
          (some (ArchiveBlob.valid ⟨some ⟨true, true, true, false⟩, true, 3⟩))
          emptyTree).result ≠ RestoreResult.restored) := by decide

/-- C1 (amended): restore reports `restored` exactly when a stored archive
exists, unpacks without error, and `creds.json` exists under the auth
directory afterwards; the restorer performs no field-level validation of
the four mandatory credential fields. -/
theorem mongoRestore_restored_iff (db : Option ArchiveBlob) (dir0 : ExtractedTree) :
    (mongoRestore db dir0).result = RestoreResult.restored ↔
      ∃ tree, db = some (ArchiveBlob.valid tree) ∧ tree.credsJson.isSome = true := by
  cases db with
  | none => simp [mongoRestore]
  | some blob =>
    cases blob with
    | malformed => simp [mongoRestore]
    | valid tree =>
      by_cases h : tree.credsJson.isSome <;> simp_all [mongoRestore]

/-- C3 counterexample: an archive whose `creds.json` is present but lacks
`registrationId`.  The claim treats this as a validation failure that must
yield `corrupted-and-cleared`; the code accepts it as restored and keeps
the stored record. -/
theorem c3_restore_counterexample :
    ¬ ((mongoRestore
          (some (ArchiveBlob.valid ⟨some ⟨true, true, true, false⟩, true, 5⟩))
          emptyTree).result = RestoreResult.corruptedAndCleared) := by decide

/-- C3 (amended): if unpacking the stored archive throws, or `creds.json`
is absent after extraction, restore clears the stored session record and
empties the local auth directory and takes the corruption branch; a
subsequent load of the session record returns none.  (A parseable
`creds.json` missing `registrationId` is not detected as corruption.) -/
theorem mongoRestore_corruption_clears (db : Option ArchiveBlob) (dir0 : ExtractedTree)
    (h : db = some ArchiveBlob.malformed ∨
         ∃ tree, db = some (ArchiveBlob.valid tree) ∧ tree.credsJson = none) :
    mongoRestore db dir0 =
      ⟨RestoreResult.corruptedAndCleared, none, emptyTree⟩ := by
  rcases h with h | ⟨tree, h, hc⟩ <;> subst h
  · rfl
  · simp [mongoRestore, hc]

/-- C3 witness: the amended theorem applied at a malformed archive. -/
theorem mongoRestore_corruption_clears_witness :
    mongoRestore (some ArchiveBlob.malformed) emptyTree =
      ⟨RestoreResult.corruptedAndCleared, none, emptyTree⟩ :=
  mongoRestore_corruption_clears (some ArchiveBlob.malformed) emptyTree (Or.inl rfl)

/-- C7 counterexample: the debounced save of src/unnamed/part_003 upserts
with `$set: \x7b archive, timestamp \x7d` only, so a freshly inserted session
document has no `size` field, contradicting the claim that every stored
session document carries all three of archive, timestamp and size. -/
theorem c7_upsert_counterexample :
    ¬ (∀ doc, upsertPart003 none [0, 1, 2] 42 = some doc → doc.size ≠ none) := by
  intro h
  exact h ⟨[0, 1, 2], 42, none⟩ rfl rfl

/-- C7 (amended): the tar-variant `saveCreds` of mongoAuthState.js upserts
the singleton record setting all three of archive, timestamp = now, and
size = byte length of the archive; the debounced save of part_003 sets
only archive and timestamp, leaving any existing `size` untouched and
inserting without one. -/
theorem upsert_fields (db : Option StoredSession) (data : List Nat) (now : Nat) :
    upsertMongoAuth db data now = some ⟨data, now, some data.length⟩ ∧
    upsertPart003 db data now =
      some ⟨data, now, Option.elim db none StoredSession.size⟩ := by
  cases db <;> exact ⟨rfl, rfl⟩

/-- C8: whichever step of the archive-and-upload rejects (tar pack, reading
the temp file, the database upsert, or — in the mongoAuthState variant —
the local library save), the persist operation itself resolves: every
failure is caught and turned into a log line, and on failure the stored
record is left as it was. -/
theorem persist_never_rejects (db : Option StoredSession) (data : List Nat) (now : Nat)
    (localFails tarFails readFails dbFails : Bool) :
    (persistTimerCallback db data now tarFails readFails dbFails).isOk = true ∧
    (saveCredsMongoAuth db data now localFails tarFails readFails dbFails).isOk = true := by
  constructor
  · cases tarFails <;> cases readFails <;> cases dbFails <;> rfl
  · cases localFails <;> cases tarFails <;> cases readFails <;> cases dbFails <;> rfl

/-- C9: a call of the debounced `saveCreds` wrapper writes the current
credentials to the local auth directory synchronously (the awaited
`originalSaveCreds`) before it returns, while the archive-and-upload log
is untouched — only the timer is re-armed, deferring the upload. -/
theorem saveCreds_local_write_immediate (s : PersisterState) (now creds : Nat) :
    (saveCredsTrigger now creds s).authDir = creds ∧
    (saveCredsTrigger now creds s).persisted = s.persisted ∧
    (saveCredsTrigger now creds s).timer = some (now + debounceMs) :=
  ⟨rfl, rfl, rfl⟩

/-- C10 counterexample: in the cached variant (src/Core/bot.js
lines 693-712) the messageStore is consulted by `key.id` before any guard
on `remoteJid`, so a key lacking `remoteJid` whose id is cached returns
the cached message, not undefined — falsifying the claim that a key
lacking a `remoteJid` returns undefined. -/
theorem c10_getmessage_counterexample :
    ¬ (getMessageCached (some ⟨none, some "m1"⟩) [("m1", 42)] true
        (Except.ok none) = none) := by decide

/-- C10 (amended): neither `getMessage` variant ever rejects (both
embeddings are total functions into `Option`).  The guarded variant
(lines 279-288) returns undefined on a null key or a key with a falsy
`remoteJid` or `id`, and undefined when the store lookup throws or finds
nothing.  The cached variant (lines 693-712) returns undefined on a null
key; a messageStore hit on `key.id` is returned before any guard, even
when `remoteJid` is absent; on a cache miss, a throwing or empty store
lookup returns undefined. -/
theorem getMessage_variants_safe (cache : List (String × Nat)) (sp : Bool)
    (lookup : Except String (Option StoredMsg)) :
    getMessage none lookup = none ∧
    (∀ k : MsgKey, (!(truthy k.remoteJid) || !(truthy k.id)) = true →
      getMessage (some k) lookup = none) ∧
    (∀ (key : Option MsgKey) (e : String), lookup = Except.error e →
      getMessage key lookup = none) ∧
    (∀ key : Option MsgKey, lookup = Except.ok none →
      getMessage key lookup = none) ∧
    getMessageCached none cache sp lookup = none ∧
    (∀ (k : MsgKey) (v : Nat), cacheHit cache k = some v →
      getMessageCached (some k) cache sp lookup = some v) ∧
    (∀ (k : MsgKey) (e : String), cacheHit cache k = none →
      lookup = Except.error e →
      getMessageCached (some k) cache sp lookup = none) ∧
    (∀ k : MsgKey, cacheHit cache k = none → lookup = Except.ok none →
      getMessageCached (some k) cache sp lookup = none) := by
  refine ⟨rfl, ?_, ?_, ?_, rfl, ?_, ?_, ?_⟩
  · intro k hk
    simp [getMessage, hk]
  · intro key e he
    cases key with
    | none => rfl
    | some k =>
      by_cases hk : (!(truthy k.remoteJid) || !(truthy k.id)) = true <;>
        simp [getMessage, hk, he]
  · intro key he
    cases key with
    | none => rfl
    | some k =>
      by_cases hk : (!(truthy k.remoteJid) || !(truthy k.id)) = true <;>
        simp [getMessage, hk, he]
  · intro k v hhit
    simp [getMessageCached, hhit]
  · intro k e hmiss he
    cases sp <;> simp [getMessageCached, hmiss, storeLookup, he]
  · intro k hmiss he
    cases sp <;> simp [getMessageCached, hmiss, storeLookup, he]

/-- C10 witness: the amended theorem applied at concrete inputs — a
throwing lookup under the guarded variant, a cache hit with no
`remoteJid` under the cached variant, a cache miss with a throwing
lookup, and a null key under the cached variant. -/
theorem getMessage_variants_safe_witness :
    getMessage (some ⟨some "jid", some "id1"⟩) (Except.error "boom") = none ∧
    getMessageCached (some ⟨none, some "m1"⟩) [("m1", 42)] true
      (Except.ok none) = some 42 ∧
    getMessageCached (some ⟨some "jid", some "m2"⟩) [("m1", 42)] true
      (Except.error "boom") = none ∧
    getMessageCached none [("m1", 42)] true (Except.ok (some ⟨some 7⟩)) = none :=
  ⟨(getMessage_variants_safe [] true (Except.error "boom")).2.2.1 _ "boom" rfl,
   (getMessage_variants_safe [("m1", 42)] true (Except.ok none)).2.2.2.2.2.1
     ⟨none, some "m1"⟩ 42 (by decide),
   (getMessage_variants_safe [("m1", 42)] true (Except.error "boom")).2.2.2.2.2.2.1
     ⟨some "jid", some "m2"⟩ "boom" (by decide) rfl,
   (getMessage_variants_safe [("m1", 42)] true
     (Except.ok (some ⟨some 7⟩))).2.2.2.2.1⟩

/-- Doubling an already-capped value and capping again equals doubling the
raw value and capping: the shape of `min(reconnectInterval * 2, max)`. -/
theorem minDoubleCap (a c : Nat) : min (min a c * 2) c = min (a * 2) c := by omega

/-- `runTransients` peels its last step as well as its first. -/
theorem runTransients_succ (k : Nat) : ∀ s : BotState,
    runTransients s (k + 1) = connStep (runTransients s k) ConnEvent.closeTransient := by
  induction k with
  | zero => intro s; rfl
  | succ k ih =>
    intro s
    show runTransients (connStep s ConnEvent.closeTransient) (k + 1) = _
    rw [ih (connStep s ConnEvent.closeTransient)]
    rfl

/-- Closed form for a run of consecutive transient disconnects: the i-th
armed delay is `min(1000 * 2 ^ i, 30000)`, the running interval after k
steps is `min(1000 * 2 ^ k, 30000)`, and the lifecycle flags are
untouched. -/
theorem runTransients_delays (s : BotState)
    (hex : s.exited = false) (hsd : s.isShuttingDown = false)
    (hmax : s.maxReconnectInterval = 30000)
    (hint : s.reconnectInterval = 1000) :
    ∀ k : Nat,
      (runTransients s k).scheduled
          = s.scheduled ++ (List.range k).map (fun i => min (1000 * 2 ^ i) 30000) ∧
      (runTransients s k).reconnectInterval = min (1000 * 2 ^ k) 30000 ∧
      (runTransients s k).exited = false ∧
      (runTransients s k).isShuttingDown = false ∧
      (runTransients s k).maxReconnectInterval = 30000 := by
  intro k
  induction k with
  | zero =>
    refine ⟨by simp [runTransients], ?_, hex, hsd, hmax⟩
    have h0 : runTransients s 0 = s := rfl
    rw [h0, hint]
    decide
  | succ k ih =>
    obtain ⟨hs, hr, he, hd, hm⟩ := ih
    rw [runTransients_succ]
    have hstep : connStep (runTransients s k) ConnEvent.closeTransient =
        { runTransients s k with
          scheduled :=
            (runTransients s k).scheduled ++ [(runTransients s k).reconnectInterval]
          reconnectInterval :=
            min ((runTransients s k).reconnectInterval * 2)
              (runTransients s k).maxReconnectInterval } := by
      simp [connStep, he, hd]
    rw [hstep]
    refine ⟨?_, ?_, he, hd, hm⟩
    · show (runTransients s k).scheduled ++ [(runTransients s k).reconnectInterval] = _
      rw [hs, hr]
      simp [List.range_succ]
    · show min ((runTransients s k).reconnectInterval * 2)
          (runTransients s k).maxReconnectInterval = _
      rw [hr, hm, minDoubleCap]
      congr 1
      ring

/-- C4: from the constructor state (interval 1000, cap 30000), k
consecutive transient disconnects with no intervening open arm reconnect
timers with delays `min(1000 * 2 ^ i, 30000)` for i = 0, ..., k-1 — the
sequence 1000, 2000, 4000, 8000, 16000, 30000, 30000, ... — which is
non-decreasing and capped at 30000. -/
theorem backoff_delay_sequence (s : BotState) (k : Nat)
    (hex : s.exited = false) (hsd : s.isShuttingDown = false)
    (hmax : s.maxReconnectInterval = 30000)
    (hint : s.reconnectInterval = 1000) :
    (runTransients s k).scheduled
        = s.scheduled ++ (List.range k).map (fun i => min (1000 * 2 ^ i) 30000) ∧
    List.Chain' (fun a b => a ≤ b)
        ((List.range k).map (fun i => min (1000 * 2 ^ i) 30000)) ∧
    ∀ d ∈ (List.range k).map (fun i => min (1000 * 2 ^ i) 30000), d ≤ 30000 := by
  refine ⟨(runTransients_delays s hex hsd hmax hint k).1, ?_, ?_⟩
  · rw [List.chain'_map]
    cases k with
    | zero => simp
    | succ k =>
      rw [List.chain'_range_succ]
      intro m _
      have h2 : 1000 * 2 ^ (m + 1) = 2 * (1000 * 2 ^ m) := by ring
      omega
  · intro d hd
    rw [List.mem_map] at hd
    obtain ⟨i, _, hi⟩ := hd
    omega

/-- C4 witness: seven consecutive transient disconnects from the
constructor state. -/
theorem backoff_delay_sequence_witness :
    (runTransients ⟨1000, 30000, [], true, false, true, false, false⟩ 7).scheduled
        = [] ++ (List.range 7).map (fun i => min (1000 * 2 ^ i) 30000) ∧
    List.Chain' (fun a b => a ≤ b)
        ((List.range 7).map (fun i => min (1000 * 2 ^ i) 30000)) ∧
    ∀ d ∈ (List.range 7).map (fun i => min (1000 * 2 ^ i) 30000), d ≤ 30000 :=
  backoff_delay_sequence ⟨1000, 30000, [], true, false, true, false, false⟩ 7
    rfl rfl rfl rfl

/-- C5: the backoff interval resets to 1000 on reaching open and only
there — the transient-close step doubles it (capped) and the logout step
leaves it unchanged — so the transient disconnect following an open armes
a timer of exactly 1000 ms. -/
theorem backoff_reset_on_open (s : BotState)
    (hex : s.exited = false) (hsd : s.isShuttingDown = false) :
    (connStep s ConnEvent.connOpen).reconnectInterval = 1000 ∧
    (connStep (connStep s ConnEvent.connOpen) ConnEvent.closeTransient).scheduled
        = s.scheduled ++ [1000] ∧
    (connStep s ConnEvent.closeTransient).reconnectInterval
        = min (s.reconnectInterval * 2) s.maxReconnectInterval ∧
    (connStep s ConnEvent.closeLoggedOut).reconnectInterval = s.reconnectInterval := by
  simp [connStep, hex, hsd]

/-- C5 witness: the reset theorem at a state whose interval has grown to
16000. -/
theorem backoff_reset_on_open_witness :
    (connStep ⟨16000, 30000, [1000, 2000], true, false, true, false, false⟩
        ConnEvent.connOpen).reconnectInterval = 1000 ∧
    (connStep (connStep ⟨16000, 30000, [1000, 2000], true, false, true, false, false⟩
        ConnEvent.connOpen) ConnEvent.closeTransient).scheduled
        = [1000, 2000] ++ [1000] ∧
    (connStep ⟨16000, 30000, [1000, 2000], true, false, true, false, false⟩
        ConnEvent.closeTransient).reconnectInterval = min (16000 * 2) 30000 ∧
    (connStep ⟨16000, 30000, [1000, 2000], true, false, true, false, false⟩
        ConnEvent.closeLoggedOut).reconnectInterval = 16000 :=
  backoff_reset_on_open ⟨16000, 30000, [1000, 2000], true, false, true, false, false⟩
    rfl rfl

/-- C6 counterexample: on a logged-out close the handler deletes the Mongo
session record and exits, but never empties the local auth directory — the
claim says the manager clears it. -/
theorem c6_logout_counterexample :
    (connStep ⟨1000, 30000, [], true, false, true, false, false⟩
        ConnEvent.closeLoggedOut).authDirEmptied = false := by decide

/-- C6 (amended): on a close classified as logged out (with Mongo auth in
use), the handler deletes the stored session record — a subsequent load
returns none — exits the process, arms no reconnect timer, and leaves the
local auth directory untouched; the dead process reacts to no further
events, so no later reconnect timer is armed either. -/
theorem logout_terminality (s : BotState)
    (hex : s.exited = false) (hm : s.useMongoAuth = true) :
    (connStep s ConnEvent.closeLoggedOut).dbSessionPresent = false ∧
    (connStep s ConnEvent.closeLoggedOut).exited = true ∧
    (connStep s ConnEvent.closeLoggedOut).scheduled = s.scheduled ∧
    (connStep s ConnEvent.closeLoggedOut).authDirEmptied = s.authDirEmptied ∧
    ∀ e, connStep (connStep s ConnEvent.closeLoggedOut) e
        = connStep s ConnEvent.closeLoggedOut := by
  have h1 : connStep s ConnEvent.closeLoggedOut =
      { s with dbSessionPresent := false, exited := true } := by
    simp [connStep, hex, hm]
  refine ⟨by rw [h1], by rw [h1], by rw [h1], by rw [h1], ?_⟩
  intro e
  rw [h1]
  simp [connStep]

/-- C6 witness: the terminality theorem at a live state with a stored
session. -/
theorem logout_terminality_witness :
    (connStep ⟨2000, 30000, [1000], true, false, true, false, false⟩
        ConnEvent.closeLoggedOut).dbSessionPresent = false ∧
    (connStep ⟨2000, 30000, [1000], true, false, true, false, false⟩
        ConnEvent.closeLoggedOut).exited = true ∧
    (connStep ⟨2000, 30000, [1000], true, false, true, false, false⟩
        ConnEvent.closeLoggedOut).scheduled = [1000] ∧
    (connStep ⟨2000, 30000, [1000], true, false, true, false, false⟩
        ConnEvent.closeLoggedOut).authDirEmptied = false ∧
    ∀ e, connStep (connStep ⟨2000, 30000, [1000], true, false, true, false, false⟩
        ConnEvent.closeLoggedOut) e
        = connStep ⟨2000, 30000, [1000], true, false, true, false, false⟩
            ConnEvent.closeLoggedOut :=
  logout_terminality ⟨2000, 30000, [1000], true, false, true, false, false⟩ rfl rfl

/-- During a burst whose gaps are all shorter than the debounce interval,
no armed timer ever comes due before the next trigger re-arms it: the run
uploads nothing, the timer ends up armed for `debounceMs` past the last
trigger, and the directory holds the last credentials. -/
theorem runTriggers_burst (rest : List (Nat × Nat)) : ∀ (s : PersisterState) (tprev : Nat),
    s.timer = some (tprev + debounceMs) → gapsOk tprev rest →
    (runTriggers s rest).persisted = s.persisted ∧
    (runTriggers s rest).timer = some (lastTime tprev rest + debounceMs) ∧
    (runTriggers s rest).authDir = lastCreds s.authDir rest := by
  induction rest with
  | nil =>
    intro s tprev ht _
    exact ⟨rfl, ht, rfl⟩
  | cons ev rest ih =>
    obtain ⟨t, c⟩ := ev
    intro s tprev ht hg
    obtain ⟨h1, h2, h3⟩ := hg
    have hng : ¬ (tprev + debounceMs ≤ t) := by omega
    have hfire : fireIfDue t s = s := by
      simp [fireIfDue, ht, hng]
    have hunfold : runTriggers s ((t, c) :: rest)
        = runTriggers (saveCredsTrigger t c s) rest := by
      show runTriggers (saveCredsTrigger t c (fireIfDue t s)) rest = _
      rw [hfire]
    rw [hunfold]
    exact ih (saveCredsTrigger t c s) t rfl h3

/-- C2: a burst of k >= 1 `saveCreds` calls whose gaps are each shorter
than the 10 s debounce interval produces exactly one archive-and-upload:
it fires `debounceMs` after the last trigger and packs the auth directory
as the last trigger left it, no intermediate state is uploaded, and every
trigger cancels the outstanding timer and re-arms it for `debounceMs`
after itself while leaving the upload log alone. -/
theorem debounce_coalescing (s : PersisterState) (t0 c0 : Nat) (rest : List (Nat × Nat))
    (ht : s.timer = none) (hg : gapsOk t0 rest) :
    (fireIfDue (lastTime t0 rest + debounceMs)
        (runTriggers s ((t0, c0) :: rest))).persisted
      = s.persisted ++ [(lastTime t0 rest + debounceMs, lastCreds c0 rest)] ∧
    (fireIfDue (lastTime t0 rest + debounceMs)
        (runTriggers s ((t0, c0) :: rest))).timer = none ∧
    ∀ (now creds : Nat) (st : PersisterState),
      (saveCredsTrigger now creds st).timer = some (now + debounceMs) ∧
      (saveCredsTrigger now creds st).persisted = st.persisted := by
  have hfire0 : fireIfDue t0 s = s := by simp [fireIfDue, ht]
  have hrun : runTriggers s ((t0, c0) :: rest)
      = runTriggers (saveCredsTrigger t0 c0 s) rest := by
    show runTriggers (saveCredsTrigger t0 c0 (fireIfDue t0 s)) rest = _
    rw [hfire0]
  obtain ⟨hp, htm, ha⟩ :=
    runTriggers_burst rest (saveCredsTrigger t0 c0 s) t0 rfl hg
  rw [hrun]
  have hfinal : fireIfDue (lastTime t0 rest + debounceMs)
      (runTriggers (saveCredsTrigger t0 c0 s) rest)
      = { runTriggers (saveCredsTrigger t0 c0 s) rest with
          timer := none
          persisted := (runTriggers (saveCredsTrigger t0 c0 s) rest).persisted
            ++ [(lastTime t0 rest + debounceMs,
                 (runTriggers (saveCredsTrigger t0 c0 s) rest).authDir)] } := by
    simp [fireIfDue, htm]
  rw [hfinal]
  refine ⟨?_, rfl, fun now creds st => ⟨rfl, rfl⟩⟩
  show (runTriggers (saveCredsTrigger t0 c0 s) rest).persisted
      ++ [(lastTime t0 rest + debounceMs,
           (runTriggers (saveCredsTrigger t0 c0 s) rest).authDir)] = _
  rw [hp, ha]
  rfl

/-- C2 witness: three triggers at instants 5, 10 and 14 (gaps 5 and 4,
both under the 10000 ms interval) writing credentials 1, 2, 3: exactly one
upload happens, at instant 10014, packing credentials 3. -/
theorem debounce_coalescing_witness :
    (fireIfDue (lastTime 5 [(10, 2), (14, 3)] + debounceMs)
        (runTriggers ⟨0, none, []⟩ ((5, 1) :: [(10, 2), (14, 3)]))).persisted
      = [] ++ [(lastTime 5 [(10, 2), (14, 3)] + debounceMs,
                lastCreds 1 [(10, 2), (14, 3)])] ∧
    (fireIfDue (lastTime 5 [(10, 2), (14, 3)] + debounceMs)
        (runTriggers ⟨0, none, []⟩ ((5, 1) :: [(10, 2), (14, 3)]))).timer = none ∧
    ∀ (now creds : Nat) (st : PersisterState),
      (saveCredsTrigger now creds st).timer = some (now + debounceMs) ∧
      (saveCredsTrigger now creds st).persisted = st.persisted :=
  debounce_coalescing ⟨0, none, []⟩ 5 1 [(10, 2), (14, 3)] rfl (by decide)

end Rexwa
